import Mathlib

/-!
Shallow embedding of `src/windows/xenolexia/MainPage.h`: a C++/WinRT
activation stub that declares the page type
`winrt::xenolexia::implementation::MainPage` (inheriting the generated
base `MainPageT<MainPage>`) and its activation factory
`winrt::xenolexia::factory_implementation::MainPage` (inheriting
`MainPageT<MainPage, implementation::MainPage>`, with an empty struct
body).

The constructor body (`MainPage.cpp`) and the generated `MainPage.g.h`
are part of the repository but are not present under `src/`; where their
behavior decides a claim, the corresponding definitions are modelled
from the spec and say so in their doc comment.
-/

namespace Xenolexia

/-- Host-environment flags relevant to the documented happy path:
the module is loaded and the host UI framework is ready. -/
structure HostEnv where
  moduleLoaded : Bool
  frameworkReady : Bool
deriving DecidableEq, Repr

/-- The only failure channel at this layer: the host runtime's own
fatal-initialization path (spec section 4.1 / 7); the stub itself
defines no error of its own. -/
inductive HostFailure where
  | hostFatalInit
deriving DecidableEq, Repr

/-- A capability (interface) an instance can satisfy.  `basePage` is the
host framework's base-page contract that `MainPageT<MainPage>` wires the
implementation into. -/
inductive Capability where
  | basePage
deriving DecidableEq, Repr

/-- One constructed page instance.  `id` identifies the object (distinct
ids model distinct objects); `capabilities` is the capability set the
instance satisfies; `uiDescriptionLoaded` records that construction
loaded the externally-authored UI description. -/
structure PageInstance where
  id : Nat
  capabilities : List Capability
  uiDescriptionLoaded : Bool
deriving DecidableEq, Repr

/-- A handle the activation machinery hands back to the host: either a
null handle or a reference to the instance with the given id. -/
inductive Handle where
  | null
  | ref (id : Nat)
deriving DecidableEq, Repr

/-- State of the loaded module as observed by the host: the page
instances alive so far and the next fresh object id. -/
structure ModuleState where
  instances : List PageInstance
  nextId : Nat
deriving DecidableEq, Repr

/-- State of the module right after the host loads it: no page instance
exists yet. -/
def moduleLoad : ModuleState :=
  { instances := [], nextId := 0 }

/-- All live instance ids are below `nextId`, so a fresh id never
collides with a live instance. -/
def freshIds (s : ModuleState) : Bool :=
  s.instances.all (fun p => p.id < s.nextId)

/-- Modelled from the spec: the body of `MainPage::MainPage()` lives in
`MainPage.cpp`, which is not under `src/`.  Per spec section 4.1, on
construction the page registers itself with the host's base-page
machinery (capability-set inheritance) and loads the UI description;
on the happy path it never fails, and the only other outcome is the
host runtime's own fatal-initialization path. -/
def MainPage.construct (env : HostEnv) (id : Nat) : Except HostFailure PageInstance :=
  if env.moduleLoaded && env.frameworkReady then
    .ok { id := id, capabilities := [.basePage], uiDescriptionLoaded := true }
  else
    .error .hostFatalInit

/-- Direct default construction of `implementation::MainPage` inside a
loaded module: run the constructor at the next fresh id and record the
new instance in the module state. -/
def constructMainPage (env : HostEnv) (s : ModuleState) :
    Except HostFailure (PageInstance × ModuleState) :=
  match MainPage.construct env s.nextId with
  | .ok p => .ok (p, { instances := s.instances ++ [p], nextId := s.nextId + 1 })
  | .error e => .error e

/-- The factory struct `factory_implementation::MainPage` from the
header: its body is empty — it declares no field of its own. -/
structure FactoryImpl where
deriving DecidableEq, Repr

/-- The factory's creation operation.  The struct body in the header is
empty, so the behavior is exactly the generated
`MainPageT<MainPage, implementation::MainPage>` activation path:
default-construct one `implementation::MainPage` and hand its handle to
the host. -/
def FactoryImpl.ActivateInstance (env : HostEnv) (s : ModuleState) :
    Except HostFailure (Handle × ModuleState) :=
  match constructMainPage env s with
  | .ok (p, s') => .ok (.ref p.id, s')
  | .error e => .error e

/-- The host disposes the instance with the given id; the module state
simply forgets it. -/
def dispose (s : ModuleState) (n : Nat) : ModuleState :=
  { s with instances := s.instances.filter (fun p => p.id ≠ n) }

/-- Look up the live instance with the given id, if any. -/
def lookup (s : ModuleState) (n : Nat) : Option PageInstance :=
  s.instances.find? (fun p => p.id = n)

/-- A capability query against a constructed instance (the host's
type-identity check). -/
def queryCapability (p : PageInstance) (c : Capability) : Bool :=
  p.capabilities.contains c

/-- Host-driven events after module load: invoke the activation
factory, or dispose a previously returned instance. -/
inductive HostEvent where
  | activate
  | disposeEvent (n : Nat)
deriving DecidableEq, Repr

/-- One host-driven step of the loaded module. -/
def step (env : HostEnv) (s : ModuleState) : HostEvent → ModuleState
  | .activate =>
    match FactoryImpl.ActivateInstance env s with
    | .ok (_, s') => s'
    | .error _ => s
  | .disposeEvent n => dispose s n

/-- Run a host-driven event trace from the freshly loaded module. -/
def run (env : HostEnv) (es : List HostEvent) : ModuleState :=
  es.foldl (step env) moduleLoad

/-- The role a declared type plays in the activation contract. -/
inductive TypeRole where
  | pageType
  | activationFactory
deriving DecidableEq, Repr

/-- A named type declaration of the module, as written in the header. -/
structure DeclaredType where
  namespacePath : List String
  name : String
  role : TypeRole
deriving DecidableEq, Repr

/-- The page-type declaration from the header:
`struct MainPage : MainPageT<MainPage>` in namespace
`winrt::xenolexia::implementation`. -/
def pageTypeDecl : DeclaredType :=
  { namespacePath := ["winrt", "xenolexia", "implementation"]
    name := "MainPage"
    role := .pageType }

/-- The factory declaration from the header:
`struct MainPage : MainPageT<MainPage, implementation::MainPage>` in
namespace `winrt::xenolexia::factory_implementation`. -/
def factoryDecl : DeclaredType :=
  { namespacePath := ["winrt", "xenolexia", "factory_implementation"]
    name := "MainPage"
    role := .activationFactory }

/-- All named types the header declares, in order. -/
def moduleDeclaredTypes : List DeclaredType :=
  [pageTypeDecl, factoryDecl]

/-- Fully qualified C++ name of a declared type. -/
def qualifiedName (t : DeclaredType) : String :=
  String.intercalate "::" (t.namespacePath ++ [t.name])

/-- The implementation type named by the factory's second template
argument, `implementation::MainPage`, resolved from the enclosing
namespace `winrt::xenolexia::factory_implementation`. -/
def factoryTemplateArg : String :=
  "winrt::xenolexia::implementation::MainPage"

/-- Direct default construction of the Page Type by the host,
bypassing the factory, written out independently of the factory's
definition: this is the comparison side of the refinement claim that
the empty-bodied factory adds nothing over direct construction. -/
def directDefaultConstruct (env : HostEnv) (s : ModuleState) :
    Except HostFailure (PageInstance × ModuleState) :=
  if env.moduleLoaded && env.frameworkReady then
    .ok (⟨s.nextId, [Capability.basePage], true⟩,
      ⟨s.instances ++ [⟨s.nextId, [Capability.basePage], true⟩], s.nextId + 1⟩)
  else
    .error HostFailure.hostFatalInit

/-! ## Helper lemmas -/

/-- Looking an id up skips any prefix of instances whose ids all differ
from it. -/
theorem lookup_skip (l₁ l₂ : List PageInstance) (m : Nat)
    (h : ∀ p ∈ l₁, p.id ≠ m) :
    (l₁ ++ l₂).find? (fun p => p.id = m) = l₂.find? (fun p => p.id = m) := by
  rw [List.find?_append, List.find?_eq_none.mpr, Option.none_or]
  intro p hp
  simpa using h p hp

/-- `freshIds` unpacked to a propositional bound on every live id. -/
theorem freshIds_lt {s : ModuleState} (hfresh : freshIds s = true) :
    ∀ p ∈ s.instances, p.id < s.nextId := by
  intro p hp
  exact of_decide_eq_true (List.all_eq_true.mp hfresh p hp)

/-- On the happy path, one activation appends exactly one freshly
constructed instance and bumps the fresh-id counter. -/
theorem activate_ok {env : HostEnv} (s : ModuleState)
    (hm : env.moduleLoaded = true) (hf : env.frameworkReady = true) :
    FactoryImpl.ActivateInstance env s =
      .ok (Handle.ref s.nextId,
        { instances :=
            s.instances ++ [⟨s.nextId, [Capability.basePage], true⟩]
          nextId := s.nextId + 1 }) := by
  simp [FactoryImpl.ActivateInstance, constructMainPage, MainPage.construct, hm, hf]

/-- Every run of `constructMainPage` either succeeds with the freshly
constructed page recorded in the state, or fails with the host's
fatal-initialization outcome. -/
theorem constructMainPage_cases (env : HostEnv) (s : ModuleState) :
    constructMainPage env s =
      .ok (⟨s.nextId, [Capability.basePage], true⟩,
        ⟨s.instances ++ [⟨s.nextId, [Capability.basePage], true⟩], s.nextId + 1⟩) ∨
    constructMainPage env s = .error HostFailure.hostFatalInit := by
  rcases Bool.eq_false_or_eq_true (env.moduleLoaded && env.frameworkReady) with hc | hc
  · left
    simp [constructMainPage, MainPage.construct, hc]
  · right
    simp [constructMainPage, MainPage.construct, hc]

/-- Every run of the factory's creation operation either succeeds with
a handle to the freshly constructed page, or fails with the host's
fatal-initialization outcome. -/
theorem activateInstance_cases (env : HostEnv) (s : ModuleState) :
    FactoryImpl.ActivateInstance env s =
      .ok (Handle.ref s.nextId,
        ⟨s.instances ++ [⟨s.nextId, [Capability.basePage], true⟩], s.nextId + 1⟩) ∨
    FactoryImpl.ActivateInstance env s = .error HostFailure.hostFatalInit := by
  rcases constructMainPage_cases env s with hc | hc <;>
    simp [FactoryImpl.ActivateInstance, hc]

/-- A trace with no activation event never grows the instance list from
empty. -/
theorem steps_no_activate (env : HostEnv) (es : List HostEvent) (s : ModuleState)
    (hs : s.instances = []) (h : ∀ e ∈ es, e ≠ HostEvent.activate) :
    (es.foldl (step env) s).instances = [] := by
  induction es generalizing s with
  | nil => exact hs
  | cons e es ih =>
    apply ih
    · cases e with
      | activate => exact absurd rfl (h _ (List.mem_cons_self _ _))
      | disposeEvent n => simp [step, dispose, hs]
    · intro e' he'
      exact h e' (List.mem_cons_of_mem _ he')

/-! ## Claims -/

/-- C1: every invocation of the factory's creation operation with the
module loaded and the host framework ready succeeds and returns a
non-null handle; it never returns a null handle or an error of its
own. -/
theorem c1_activate_succeeds_nonnull (env : HostEnv) (s : ModuleState)
    (hm : env.moduleLoaded = true) (hf : env.frameworkReady = true) :
    ∃ h s', FactoryImpl.ActivateInstance env s = .ok (h, s') ∧ h ≠ Handle.null := by
  exact ⟨Handle.ref s.nextId, _, activate_ok s hm hf, by simp⟩

/-- Witness for C1 at the freshly loaded module. -/
theorem c1_witness :
    ∃ h s', FactoryImpl.ActivateInstance ⟨true, true⟩ moduleLoad = .ok (h, s') ∧
      h ≠ Handle.null :=
  c1_activate_succeeds_nonnull ⟨true, true⟩ moduleLoad rfl rfl

/-- C2: two successive invocations of the factory's creation operation
return distinct instances A and B, both alive afterwards, and disposing
either one leaves the other unchanged and valid. -/
theorem c2_successive_creates_independent (env : HostEnv) (s : ModuleState)
    (hm : env.moduleLoaded = true) (hf : env.frameworkReady = true)
    (hfresh : freshIds s = true) :
    ∃ A B s₁ s₂,
      FactoryImpl.ActivateInstance env s = .ok (Handle.ref A.id, s₁) ∧
      FactoryImpl.ActivateInstance env s₁ = .ok (Handle.ref B.id, s₂) ∧
      A ≠ B ∧ A.id ≠ B.id ∧
      lookup s₂ A.id = some A ∧ lookup s₂ B.id = some B ∧
      lookup (dispose s₂ A.id) B.id = some B ∧
      lookup (dispose s₂ B.id) A.id = some A := by
  have hlt := freshIds_lt hfresh
  refine ⟨⟨s.nextId, [.basePage], true⟩, ⟨s.nextId + 1, [.basePage], true⟩,
    _, _, activate_ok s hm hf, activate_ok _ hm hf, by simp, by simp, ?_, ?_, ?_, ?_⟩
  · show lookup ⟨(s.instances ++ [_]) ++ [_], _⟩ s.nextId = _
    rw [lookup, List.append_assoc,
      lookup_skip _ _ _ (fun p hp => Nat.ne_of_lt (hlt p hp))]
    simp [List.find?]
  · show lookup ⟨(s.instances ++ [_]) ++ [_], _⟩ (s.nextId + 1) = _
    rw [lookup, List.append_assoc,
      lookup_skip _ _ _ (fun p hp => Nat.ne_of_lt (Nat.lt_succ_of_lt (hlt p hp)))]
    simp [List.find?]
  · show lookup (dispose ⟨(s.instances ++ [_]) ++ [_], _⟩ s.nextId) (s.nextId + 1) = _
    rw [lookup, dispose, List.append_assoc]
    rw [List.filter_append]
    rw [lookup_skip]
    · simp [List.find?, List.filter]
    · intro p hp
      exact Nat.ne_of_lt (Nat.lt_succ_of_lt (hlt p (List.mem_of_mem_filter hp)))
  · show lookup (dispose ⟨(s.instances ++ [_]) ++ [_], _⟩ (s.nextId + 1)) s.nextId = _
    rw [lookup, dispose, List.append_assoc]
    rw [List.filter_append]
    rw [lookup_skip]
    · simp [List.find?, List.filter, Nat.ne_of_lt (Nat.lt_succ_self s.nextId)]
    · intro p hp
      exact Nat.ne_of_lt (hlt p (List.mem_of_mem_filter hp))

/-- Witness for C2 at the freshly loaded module. -/
theorem c2_witness :
    ∃ A B s₁ s₂,
      FactoryImpl.ActivateInstance ⟨true, true⟩ moduleLoad = .ok (Handle.ref A.id, s₁) ∧
      FactoryImpl.ActivateInstance ⟨true, true⟩ s₁ = .ok (Handle.ref B.id, s₂) ∧
      A ≠ B ∧ A.id ≠ B.id ∧
      lookup s₂ A.id = some A ∧ lookup s₂ B.id = some B ∧
      lookup (dispose s₂ A.id) B.id = some B ∧
      lookup (dispose s₂ B.id) A.id = some A :=
  c2_successive_creates_independent ⟨true, true⟩ moduleLoad rfl rfl (by decide)

/-- C3: the Page Type is default-constructible (its constructor takes
no required arguments beyond the host environment and the bookkeeping
id), and construction registers the instance with the host's base-page
machinery: the constructed instance carries the host base-page
capability. -/
theorem c3_construct_registers_base_page (env : HostEnv) (id : Nat)
    (hm : env.moduleLoaded = true) (hf : env.frameworkReady = true) :
    ∃ p, MainPage.construct env id = .ok p ∧ Capability.basePage ∈ p.capabilities := by
  refine ⟨⟨id, [.basePage], true⟩, ?_, by simp⟩
  simp [MainPage.construct, hm, hf]

/-- Witness for C3 at a concrete environment and id. -/
theorem c3_witness :
    ∃ p, MainPage.construct ⟨true, true⟩ 0 = .ok p ∧
      Capability.basePage ∈ p.capabilities :=
  c3_construct_registers_base_page ⟨true, true⟩ 0 rfl rfl

/-- C4: every successfully constructed Page Type instance passes the
host's type-identity check against the base-page contract. -/
theorem c4_constructed_satisfies_base_page (env : HostEnv) (id : Nat)
    (p : PageInstance) (h : MainPage.construct env id = .ok p) :
    queryCapability p Capability.basePage = true := by
  rw [MainPage.construct] at h
  split at h
  · cases h
    rfl
  · cases h

/-- Witness for C4 at a concretely constructed instance. -/
theorem c4_witness :
    queryCapability ⟨0, [Capability.basePage], true⟩ Capability.basePage = true :=
  c4_constructed_satisfies_base_page ⟨true, true⟩ 0 _ rfl

/-- C5: under the documented happy path (module loaded, framework
ready) construction succeeds — it never throws or aborts — and the
only possible failure outcome of construction at all is the host
runtime's own fatal-initialization path. -/
theorem c5_construct_total_happy_path (env : HostEnv) (id : Nat) :
    (env.moduleLoaded = true → env.frameworkReady = true →
      (MainPage.construct env id).isOk = true) ∧
    (∀ e, MainPage.construct env id = .error e → e = HostFailure.hostFatalInit) := by
  constructor
  · intro hm hf
    rw [MainPage.construct, hm, hf]
    rfl
  · intro e _
    cases e
    rfl

/-- Witness for C5: on the concrete happy path, construction succeeds. -/
theorem c5_witness : (MainPage.construct ⟨true, true⟩ 0).isOk = true :=
  (c5_construct_total_happy_path ⟨true, true⟩ 0).1 rfl rfl

/-- C6: the module exposes exactly two named types — one Page Type and
one Activation Factory, and no others — and both are declared under a
namespace matching the application's identity (`xenolexia`). -/
theorem c6_exactly_two_types_under_app_namespace :
    moduleDeclaredTypes.length = 2 ∧
    (moduleDeclaredTypes.filter (fun t => t.role == TypeRole.pageType)).length = 1 ∧
    (moduleDeclaredTypes.filter
      (fun t => t.role == TypeRole.activationFactory)).length = 1 ∧
    ∀ t ∈ moduleDeclaredTypes, "xenolexia" ∈ t.namespacePath := by
  refine ⟨rfl, rfl, rfl, ?_⟩
  decide

/-- C7: if the module is loaded but the activation factory is never
invoked, no Page Type instance is ever created. -/
theorem c7_no_eager_instantiation (env : HostEnv) (es : List HostEvent)
    (h : ∀ e ∈ es, e ≠ HostEvent.activate) :
    (run env es).instances = [] :=
  steps_no_activate env es moduleLoad rfl h

/-- Witness for C7 on a concrete activation-free trace. -/
theorem c7_witness : (run ⟨true, true⟩ [HostEvent.disposeEvent 0]).instances = [] :=
  c7_no_eager_instantiation ⟨true, true⟩ [HostEvent.disposeEvent 0] (by decide)

/-- C8: the factory owns no mutable state (the factory struct has no
fields, so all factory values are equal), and a successful creation has
no side effect beyond constructing and returning the one new page
instance: the module state changes only by appending that instance. -/
theorem c8_factory_stateless_no_side_effect :
    (∀ f g : FactoryImpl, f = g) ∧
    ∀ env s, (FactoryImpl.ActivateInstance env s).isOk = true →
      ∃ p, FactoryImpl.ActivateInstance env s =
        .ok (Handle.ref p.id, ⟨s.instances ++ [p], s.nextId + 1⟩) := by
  refine ⟨fun f g => by cases f; cases g; rfl, ?_⟩
  intro env s hok
  rcases activateInstance_cases env s with hc | hc
  · exact ⟨⟨s.nextId, [.basePage], true⟩, hc⟩
  · rw [hc] at hok
    simp [Except.isOk, Except.toBool] at hok

/-- Witness for C8 on the freshly loaded module. -/
theorem c8_witness :
    ∃ p, FactoryImpl.ActivateInstance ⟨true, true⟩ moduleLoad =
      .ok (Handle.ref p.id,
        ⟨moduleLoad.instances ++ [p], moduleLoad.nextId + 1⟩) :=
  c8_factory_stateless_no_side_effect.2 ⟨true, true⟩ moduleLoad rfl

/-- C9: the artifact declares exactly one Page Type and exactly one
Activation Factory, and the factory's template argument names exactly
that Page Type (correct pairing). -/
theorem c9_one_to_one_pairing :
    (moduleDeclaredTypes.filter (fun t => t.role == TypeRole.pageType)) =
      [pageTypeDecl] ∧
    (moduleDeclaredTypes.filter (fun t => t.role == TypeRole.activationFactory)) =
      [factoryDecl] ∧
    qualifiedName pageTypeDecl = factoryTemplateArg := by
  refine ⟨rfl, rfl, ?_⟩
  rfl

/-- C10: the factory's creation operation is observationally equivalent
to direct default construction of the Page Type — the factory adds
nothing beyond wrapping the constructed instance's handle. -/
theorem c10_factory_equals_direct_construction (env : HostEnv) (s : ModuleState) :
    FactoryImpl.ActivateInstance env s =
      match directDefaultConstruct env s with
      | .ok (p, s') => .ok (Handle.ref p.id, s')
      | .error e => .error e := by
  rcases Bool.eq_false_or_eq_true (env.moduleLoaded && env.frameworkReady) with hc | hc <;>
    simp [FactoryImpl.ActivateInstance, constructMainPage, MainPage.construct,
      directDefaultConstruct, hc]

end Xenolexia
